import Mathlib

/-!
Verification of the SimpleSwap exchange-automation engine against its design
specification.  The definitions below are a shallow embedding of the Python
sources: `src/main.py` (profile store and orchestrator), `src/main_puppeteer.py`
(crawler variant), `src/cli.py` (command-line front-end), `src/mcp_server.py`
(tool-calling server) and `src/unified_workflow.py` (workflow composer).

Python strings that are inspected character by character (URLs) are modelled as
`List Char`; strings that are only constructed and compared are modelled as
`String`.  Fallible external calls (browser actions, HTTP requests, key-value
reads and writes) are modelled by oracle parameters describing their outcome in
a given run; exceptions are `Except.error` values or `Option String` flags.
-/

namespace SimpleSwap

/-! ## Python string primitives over `List Char` -/

/-- Python substring test `needle in hay`. -/
def containsSeq (needle : List Char) : List Char → Bool
  | [] => needle.isEmpty
  | c :: rest => needle.isPrefixOf (c :: rest) || containsSeq needle rest

/-- Suffix of `hay` after the end of the first occurrence of `needle`
(`none` when `needle` does not occur).  Python left-to-right search. -/
def afterFirst (needle : List Char) : List Char → Option (List Char)
  | [] => if needle.isEmpty then some [] else none
  | c :: rest =>
      if needle.isPrefixOf (c :: rest) then some ((c :: rest).drop needle.length)
      else afterFirst needle rest

/-- Longest prefix of `hay` before the first occurrence of `needle` (all of
`hay` when `needle` does not occur); this is Python `hay.split(needle)[0]`. -/
def upToSeq (needle : List Char) : List Char → List Char
  | [] => []
  | c :: rest => if needle.isPrefixOf (c :: rest) then [] else c :: upToSeq needle rest

/-- Split on a single character, like Python `hay.split(sep)` for a one-char
separator.  The result is never empty. -/
def splitChar (sep : Char) : List Char → List (List Char)
  | [] => [[]]
  | c :: rest =>
      let ps := splitChar sep rest
      if c = sep then [] :: ps else (c :: ps.headD []) :: ps.tail

/-- Python truthiness of an optional string: `None` and `""` are falsy. -/
def truthyStr : Option String → Bool
  | none => false
  | some s => !(s == "")

/-- Python truthiness of an optional float (amounts are modelled as rationals):
`None` and `0.0` are falsy. -/
def truthyAmt : Option ℚ → Bool
  | none => false
  | some a => !(a == 0)

/-! ## URL outcome classification

Shared logic of `src/main.py` lines 573-574 and `src/main_puppeteer.py` lines
76-77:

  if "id=" in current_url:
      exchange_id = current_url.split("id=")[1].split("&")[0]
-/

/-- The marker `"id="` searched for in the final URL. -/
def idMarker : List Char := "id=".toList

/-- The query separator `"&"`. -/
def ampMarker : List Char := "&".toList

/-- Outcome classification from the final URL.  `some exid` models the success
branch with `exchange_id = exid`; `none` models the no-redirect failure branch.
`current_url.split("id=")[1]` is the text between the first occurrence of
`"id="` and the following occurrence (or the end of the string), hence the
inner `upToSeq idMarker`; the outer `upToSeq ampMarker` is `.split("&")[0]`. -/
def classify_url (url : List Char) : Option (List Char) :=
  match afterFirst idMarker url with
  | none => none
  | some rest => some (upToSeq ampMarker (upToSeq idMarker rest))

/-- Modelled from the spec wording of claim C1: the extracted identifier is the
substring after `id=` up to the next `&` or the end of the string. -/
def specIdentifier (url : List Char) : Option (List Char) :=
  (afterFirst idMarker url).map (upToSeq ampMarker)

/-- Modelled from the spec wording of claim C1: the URL contains an `id=`
query parameter, i.e. some `&`-separated component of the part after `?`
starts with `id=`. -/
def hasIdParam (url : List Char) : Bool :=
  match afterFirst ['?'] url with
  | none => false
  | some query => (splitChar '&' query).any (fun comp => idMarker.isPrefixOf comp)

/-! ## Profile store (`BrowserProfileManager`, `src/main.py` lines 15-193) -/

/-- One cookie record of the browser context. -/
structure Cookie where
  name : String
  value : String
  domain : String
  path : String
  deriving DecidableEq, Repr

/-- The persisted profile record compiled by `save_profile`
(`src/main.py` lines 52-59). -/
structure ProfileData where
  cookies : List Cookie
  localStorage : List (String × String)
  sessionStorage : List (String × String)
  userAgent : String
  timestamp : String
  version : String
  deriving DecidableEq, Repr

/-- The browser-context state the profile manager reads and writes. -/
structure BrowserCtx where
  cookies : List Cookie
  localStorage : List (String × String)
  sessionStorage : List (String × String)
  userAgent : String
  deriving DecidableEq, Repr

/-- The Apify key-value store, as an association list with the newest entry
first.  The on-disk format is out of scope; only the logical mapping is kept. -/
abbrev KVStore := List (String × ProfileData)

/-- Read a record from the key-value store. -/
def kvGet (store : KVStore) (name : String) : Option ProfileData :=
  (store.find? (fun e => e.1 == name)).map (fun e => e.2)

/-- Write a record to the key-value store. -/
def kvSet (store : KVStore) (name : String) (v : ProfileData) : KVStore :=
  (name, v) :: store

/-- Clear a record (`set_value(name, None)` in `delete_profile`). -/
def kvDel (store : KVStore) (name : String) : KVStore :=
  store.filter (fun e => !(e.1 == name))

/-- The fixed profile identity used throughout `src/main.py`
(single-profile design, default argument `"simpleswap_profile"`). -/
def profileName : String := "simpleswap_profile"

/-- The profile record gathered from the context, exactly the dict built at
`src/main.py` lines 52-59. -/
def gatherProfile (ctx : BrowserCtx) (now : String) : ProfileData :=
  { cookies := ctx.cookies, localStorage := ctx.localStorage,
    sessionStorage := ctx.sessionStorage, userAgent := ctx.userAgent,
    timestamp := now, version := "1.0" }

/-- `BrowserProfileManager.save_profile` (`src/main.py` lines 29-73).
`gatherOk` is the oracle for the context reads (cookies, storages, user agent)
raising; `setOk` for the key-value write raising.  The enclosing try/except
absorbs both and returns `None`.  The result pairs the returned value with the
store after the call. -/
def save_profile (store : KVStore) (ctx : BrowserCtx) (now : String)
    (gatherOk setOk : Bool) (name : String) : Option ProfileData × KVStore :=
  if gatherOk then
    let p := gatherProfile ctx now
    if setOk then (some p, kvSet store name p) else (none, store)
  else (none, store)

/-- Restore steps of `load_profile` (`src/main.py` lines 94-107): cookies are
added to the context, each storage is cleared and refilled, and each of the
three steps runs only when its saved collection is non-empty (Python
truthiness of the dict entries). -/
def restoreProfile (p : ProfileData) (ctx : BrowserCtx) : BrowserCtx :=
  let c1 := if p.cookies.isEmpty then ctx else { ctx with cookies := ctx.cookies ++ p.cookies }
  let c2 := if p.localStorage.isEmpty then c1 else { c1 with localStorage := p.localStorage }
  if p.sessionStorage.isEmpty then c2 else { c2 with sessionStorage := p.sessionStorage }

/-- `BrowserProfileManager.load_profile` (`src/main.py` lines 75-114).
`getFail` is the oracle for the key-value read raising; `restoreOk` for the
restore calls raising.  The enclosing try/except absorbs every exception and
returns `False` (a restore exception may leave part of the state applied; only
the fully-restored context matters for the claims and is tracked here). -/
def load_profile (store : KVStore) (ctx : BrowserCtx) (getFail : Option String)
    (restoreOk : Bool) (name : String) : Bool × BrowserCtx :=
  match getFail with
  | some _ => (false, ctx)
  | none =>
    match kvGet store name with
    | none => (false, ctx)
    | some p => if restoreOk then (true, restoreProfile p ctx) else (false, ctx)

/-- `BrowserProfileManager.profile_exists` (`src/main.py` lines 116-127).
There is no try/except around the key-value read, so a raising read
propagates out of the operation. -/
def profile_exists (store : KVStore) (getFail : Option String)
    (name : String) : Except String Bool :=
  match getFail with
  | some e => Except.error e
  | none => Except.ok (kvGet store name).isSome

/-- `BrowserProfileManager.delete_profile` (`src/main.py` lines 129-142): the
clearing write is wrapped in try/except, a raising write is absorbed and
`False` returned. -/
def delete_profile (store : KVStore) (setFail : Bool)
    (name : String) : Bool × KVStore :=
  if setFail then (false, store) else (true, kvDel store name)

/-! ## Result records and run traces -/

/-- Result record pushed by a run (the `AutomationResult` of the spec).
Optional fields cover the different dict shapes built in `src/main.py` and
`src/main_puppeteer.py`; a field is `none` when the corresponding key is
absent from the dict. -/
structure AutoResult where
  status : String
  error : Option String := none
  wallet_address : Option String := none
  amount : Option ℚ := none
  from_currency : Option String := none
  to_currency : Option String := none
  exchange_id : Option (List Char) := none
  exchange_url : Option (List Char) := none
  current_url : Option (List Char) := none
  field_value : Option (List Char) := none
  message : Option String := none
  profile_saved : Option Bool := none
  created_at : String := ""
  deriving DecidableEq, Repr

/-- Observable effects of one orchestrator run. -/
structure RunTrace where
  launches : Nat
  navs : Nat
  saveCalls : Nat
  store : KVStore
  published : List AutoResult
  raised : Option String
  deriving DecidableEq, Repr

/-- The verification at `src/main.py` lines 500-521: the run proceeds only when
the input field has a value and the wallet address occurs in it after
lowercasing both sides
(`current_value and wallet_address.lower() in current_value.lower()`). -/
def addressSelectedCheck (wallet : List Char) (fieldValue : Option (List Char)) : Bool :=
  match fieldValue with
  | none => false
  | some v =>
      !(v.isEmpty) && containsSeq (wallet.map Char.toLower) (v.map Char.toLower)

/-- Environment of one automation-mode run: the profile store at entry, the
fresh browser context, and oracles for the fallible steps.
`launchErr` models the playwright start, browser launch, context and page
creation raising (`src/main.py` lines 378-405, all before the try block);
`bodyErr` models an unhandled exception at any point of the guarded region
(`src/main.py` lines 407-612) that the inner handlers do not absorb, such as
navigation, the address-field selector timing out, a screenshot or the submit
click raising; `addressFound` is whether the saved address became clickable in
the dropdown, directly or after the typed-prefix retry (lines 462-495). -/
structure AutoEnv where
  store : KVStore
  ctx : BrowserCtx
  launchErr : Option String := none
  loadGetFail : Option String := none
  restoreOk : Bool := true
  bodyErr : Option String := none
  addressFound : Bool := true
  fieldValue : Option (List Char) := none
  finalUrl : List Char := []
  saveGatherOk : Bool := true
  saveSetOk : Bool := true
  wallet_address : List Char := []
  amount : ℚ := 25
  from_currency : String := "usd-usd"
  to_currency : String := "pol-matic"
  now : String := ""
  deriving Repr

/-- Wallet address rendered into the result dicts. -/
def walletStr (env : AutoEnv) : Option String :=
  some (String.mk env.wallet_address)

/-- `run_automation_mode` (`src/main.py` lines 366-629) as a trace function of
its environment.  The browser launch and context creation precede the try
block, so an exception there escapes the function; inside the try block every
unhandled exception reaches the except clause, which publishes a status
`"error"` result carrying the raw error text.  Each terminal path publishes
exactly one result (`push_data` and the `OUTPUT` write store the same record).
`save_profile` is called only on the success branch (line 595). -/
def run_automation_mode (env : AutoEnv) : RunTrace :=
  match env.launchErr with
  | some e =>
      { launches := 1, navs := 0, saveCalls := 0, store := env.store,
        published := [], raised := some e }
  | none =>
    if !(load_profile env.store env.ctx env.loadGetFail env.restoreOk profileName).1 then
      { launches := 1, navs := 0, saveCalls := 0, store := env.store,
        published := [{ status := "failed",
                        error := some "No saved profile found. Run setup mode first.",
                        wallet_address := walletStr env, amount := some env.amount,
                        created_at := env.now }],
        raised := none }
    else
      match env.bodyErr with
      | some e =>
          { launches := 1, navs := 1, saveCalls := 0, store := env.store,
            published := [{ status := "error", error := some e,
                            wallet_address := walletStr env, amount := some env.amount,
                            created_at := env.now }],
            raised := none }
      | none =>
        if !env.addressFound then
          { launches := 1, navs := 1, saveCalls := 0, store := env.store,
            published := [{ status := "failed",
                            error := some "Saved address not found in dropdown. Profile may be invalid.",
                            wallet_address := walletStr env, amount := some env.amount,
                            created_at := env.now }],
            raised := none }
        else if !(addressSelectedCheck env.wallet_address env.fieldValue) then
          { launches := 1, navs := 1, saveCalls := 0, store := env.store,
            published := [{ status := "failed",
                            error := some "Address not selected properly",
                            field_value := env.fieldValue,
                            wallet_address := walletStr env, amount := some env.amount,
                            created_at := env.now }],
            raised := none }
        else
          match classify_url env.finalUrl with
          | some exid =>
              let saved := save_profile env.store env.ctx env.now
                env.saveGatherOk env.saveSetOk profileName
              { launches := 1, navs := 1, saveCalls := 1, store := saved.2,
                published := [{ status := "success",
                                wallet_address := walletStr env, amount := some env.amount,
                                from_currency := some env.from_currency,
                                to_currency := some env.to_currency,
                                exchange_id := some exid,
                                exchange_url := some env.finalUrl,
                                created_at := env.now }],
                raised := none }
          | none =>
              { launches := 1, navs := 1, saveCalls := 0, store := env.store,
                published := [{ status := "failed",
                                error := some "No redirect to exchange page",
                                current_url := some env.finalUrl,
                                wallet_address := walletStr env, amount := some env.amount,
                                created_at := env.now }],
                raised := none }

/-- Environment of one setup-mode run.  `bodyErr` models an unhandled
exception in the guarded region before the profile save (the navigation and
the initial delay, `src/main.py` lines 243-247); the address-entry sub-steps
(`inputOk`, `addLinkOk`, `modalOk`, lines 251-288) are each wrapped in their
own try/except and can only degrade, never abort; the screenshot block
(lines 295-301) is absorbed by a bare except. -/
structure SetupEnv where
  store : KVStore
  ctx : BrowserCtx
  launchErr : Option String := none
  bodyErr : Option String := none
  inputOk : Bool := true
  addLinkOk : Bool := true
  modalOk : Bool := true
  saveGatherOk : Bool := true
  saveSetOk : Bool := true
  headless : Bool := true
  wallet_address : List Char := []
  amount : ℚ := 25
  from_currency : String := "usd-usd"
  to_currency : String := "pol-matic"
  now : String := ""
  deriving Repr

/-- `run_setup_mode` (`src/main.py` lines 195-363) as a trace function.  The
browser launch precedes the try block; a navigation exception reaches the
except clause (lines 351-360) and publishes a `"setup_error"` result without
reaching the save at line 292; otherwise `save_profile` is called once,
regardless of the sub-step outcomes, and the published record depends on the
headless flag and on whether the save returned a profile. -/
def run_setup_mode (env : SetupEnv) : RunTrace :=
  match env.launchErr with
  | some e =>
      { launches := 1, navs := 0, saveCalls := 0, store := env.store,
        published := [], raised := some e }
  | none =>
    match env.bodyErr with
    | some e =>
        { launches := 1, navs := 1, saveCalls := 0, store := env.store,
          published := [{ status := "setup_error", error := some e,
                          wallet_address := some (String.mk env.wallet_address),
                          created_at := env.now }],
          raised := none }
    | none =>
      let saved := save_profile env.store env.ctx env.now
        env.saveGatherOk env.saveSetOk profileName
      let profileSaved := saved.1.isSome
      let result : AutoResult :=
        if env.headless then
          { status := "setup_info",
            wallet_address := some (String.mk env.wallet_address),
            amount := some env.amount,
            from_currency := some env.from_currency,
            to_currency := some env.to_currency,
            message := some "Setup mode attempted in headless environment. For full setup, run locally with headless=False.",
            profile_saved := some profileSaved,
            created_at := env.now }
        else if profileSaved then
          { status := "setup_completed",
            wallet_address := some (String.mk env.wallet_address),
            amount := some env.amount,
            from_currency := some env.from_currency,
            to_currency := some env.to_currency,
            message := some "Browser profile saved successfully. Ready for automation mode.",
            created_at := env.now }
        else
          { status := "setup_failed",
            error := some "Failed to save browser profile",
            wallet_address := some (String.mk env.wallet_address),
            created_at := env.now }
      { launches := 1, navs := 1, saveCalls := 1, store := saved.2,
        published := [result], raised := none }

/-- `main` of `src/main.py` (lines 632-656): the wallet address is checked for
Python truthiness before the profile manager is initialized and before either
mode runs; a falsy wallet logs an error and exits without launching a browser.
The chosen mode runs with the wallet from the input. -/
def mainEntry (wallet : Option String) (setup_mode : Bool)
    (envA : AutoEnv) (envS : SetupEnv) : RunTrace :=
  if !(truthyStr wallet) then
    { launches := 0, navs := 0, saveCalls := 0,
      store := if setup_mode then envS.store else envA.store,
      published := [], raised := none }
  else if setup_mode then
    run_setup_mode { envS with wallet_address := (wallet.getD "").toList }
  else
    run_automation_mode { envA with wallet_address := (wallet.getD "").toList }

/-! ## Crawler variant (`src/main_puppeteer.py`) -/

/-- Environment of one crawler run: whether the request handler ran, an
unhandled-exception oracle for its body, and the final URL. -/
structure PupEnv where
  handlerRan : Bool := true
  bodyErr : Option String := none
  finalUrl : List Char := []
  wallet_address : List Char := []
  amount : ℚ := 25
  from_currency : String := "usd-usd"
  to_currency : String := "pol-matic"
  now : String := ""
  deriving Repr

/-- `create_simpleswap_exchange` (`src/main_puppeteer.py` lines 11-133):
`result` starts as `{"status": "pending"}` and is replaced by the request
handler; the handler classifies the outcome from the final URL with the same
`"id="` logic as the playwright variant, and converts its own unhandled
exceptions to a status `"error"` record. -/
def create_simpleswap_exchange (env : PupEnv) : AutoResult :=
  if !env.handlerRan then { status := "pending" }
  else
    match env.bodyErr with
    | some e =>
        { status := "error", error := some e,
          wallet_address := some (String.mk env.wallet_address),
          amount := some env.amount, created_at := env.now }
    | none =>
      match classify_url env.finalUrl with
      | some exid =>
          { status := "success",
            wallet_address := some (String.mk env.wallet_address),
            amount := some env.amount,
            from_currency := some env.from_currency,
            to_currency := some env.to_currency,
            exchange_id := some exid,
            exchange_url := some env.finalUrl,
            created_at := env.now }
      | none =>
          { status := "failed", error := some "No redirect to exchange page",
            current_url := some env.finalUrl,
            wallet_address := some (String.mk env.wallet_address),
            amount := some env.amount, created_at := env.now }

/-- `main` of `src/main_puppeteer.py` (lines 136-169): a falsy wallet address
fails the actor before the crawler (and hence any browser) starts; otherwise
the crawler runs once and the handler result is published. -/
def puppeteer_main (wallet : Option String) (env : PupEnv) : RunTrace :=
  if !(truthyStr wallet) then
    { launches := 0, navs := 0, saveCalls := 0, store := [], published := [], raised := none }
  else
    { launches := 1, navs := 1, saveCalls := 0, store := [],
      published := [create_simpleswap_exchange
        { env with wallet_address := (wallet.getD "").toList }],
      raised := none }

/-! ## Remote-job polling (`src/cli.py`, `src/unified_workflow.py`) -/

/-- Status of a remote Apify run as observed by the front-ends. -/
inductive JobStatus where
  | ready
  | running
  | succeeded
  | failed
  deriving DecidableEq, Repr

/-- Outcome of `SimpleSwapCLI.wait_for_completion`: normal return on
`SUCCEEDED`, a raised `ClickException` on `FAILED`, and a raised
`ClickException("Timeout waiting for completion")` on timeout.  The index
records at which poll the terminal status was seen; `timedOut` records how
many polls were made. -/
inductive CliOutcome where
  | completed (k : Nat)
  | runFailed (k : Nat)
  | timedOut (checks : Nat)
  deriving DecidableEq, Repr

/-- Loop of `SimpleSwapCLI.wait_for_completion` (`src/cli.py` lines 124-151).
The poll of iteration `k` happens at time `5 * k` seconds: every non-terminal
iteration ends in `time.sleep(5)`, and the request latency is folded into the
same interval.  The top-of-loop guard `time.time() - start_time > timeout`
therefore admits exactly the iterations with `5 * k ≤ timeout`, that is
`timeout / 5 + 1` polls; `n` counts the admitted polls that remain, and
exhausting them raises the timeout exception. -/
def cliPollAux (statuses : Nat → JobStatus) (k : Nat) : Nat → CliOutcome
  | 0 => CliOutcome.timedOut k
  | n + 1 =>
    match statuses k with
    | JobStatus.succeeded => CliOutcome.completed k
    | JobStatus.failed => CliOutcome.runFailed k
    | _ => cliPollAux statuses (k + 1) n

/-- `SimpleSwapCLI.wait_for_completion` applied to the status sequence of one
run; the default of its `timeout` parameter in the source is 300 seconds. -/
def wait_for_completion (statuses : Nat → JobStatus) (timeout : Nat) : CliOutcome :=
  cliPollAux statuses 0 (timeout / 5 + 1)

/-- Return record of `SimpleSwapWorkflow.monitor_completion`, together with the
number of status polls performed. -/
structure MonitorOutcome where
  success : Bool
  error : Option String := none
  result : Option AutoResult := none
  checks : Nat
  deriving DecidableEq, Repr

/-- Loop of `SimpleSwapWorkflow.monitor_completion`
(`src/unified_workflow.py` lines 261-302).  Each iteration is charged one
5-second interval (the happy path sleeps 5 seconds; the transport-error
`continue` path skips the sleep but spends its HTTP round-trip).  The while
guard `time.time() - start_time < timeout` admits the iterations with
`5 * k < timeout`; `n` counts the remaining admitted iterations, and the
natural loop exit returns the `"Monitoring timeout"` record.  A transport
error on the status check continues the loop; on `SUCCEEDED` the output
artifact is fetched and the loop returns success only when the fetched dict
has no `error` key (both a transport error, which yields `{"error": ...}`,
and a fetched result carrying an `error` field fall through to the sleep and
retry); `FAILED` returns `{"success": False, "error": "Run failed"}`. -/
def monitorAux (statuses : Nat → Except String JobStatus)
    (fetches : Nat → Except String AutoResult) (k : Nat) : Nat → MonitorOutcome
  | 0 => { success := false, error := some "Monitoring timeout", checks := k }
  | n + 1 =>
    match statuses k with
    | Except.error _ => monitorAux statuses fetches (k + 1) n
    | Except.ok JobStatus.succeeded =>
      match fetches k with
      | Except.ok r =>
          if r.error.isSome then monitorAux statuses fetches (k + 1) n
          else { success := true, result := some r, checks := k + 1 }
      | Except.error _ => monitorAux statuses fetches (k + 1) n
    | Except.ok JobStatus.failed =>
        { success := false, error := some "Run failed", checks := k + 1 }
    | Except.ok _ => monitorAux statuses fetches (k + 1) n

/-- `SimpleSwapWorkflow.monitor_completion` with its hard-coded timeout of
300 seconds (`timeout = 300  # 5 minutes` in the source): `5 * k < 300`
admits 60 polls. -/
def monitor_completion (statuses : Nat → Except String JobStatus)
    (fetches : Nat → Except String AutoResult) : MonitorOutcome :=
  monitorAux statuses fetches 0 60

/-! ## MCP server sessions and defaults (`src/mcp_server.py`) -/

/-- A tracked swap session (`SwapSession` dataclass,
`src/mcp_server.py` lines 41-58). -/
structure SwapSession where
  session_id : String
  wallet_address : String
  amount : ℚ
  from_currency : String
  to_currency : String
  status : String := "created"
  run_id : Option String := none
  exchange_id : Option (List Char) := none
  exchange_url : Option (List Char) := none
  created_at : String := ""
  completed_at : Option String := none
  deriving DecidableEq, Repr

/-- Session mutation performed by the `check_status` tool
(`src/mcp_server.py` lines 302-327) when a session id is supplied and tracked.
On `SUCCEEDED` the session is marked `"completed"` and time-stamped before the
output artifact is fetched; the exchange fields are copied only when the
fetched result has status `"success"` (a raising fetch leaves the already
mutated session as is and skips the copy); `FAILED` and `RUNNING` set the
corresponding lowercase status and `READY` leaves the session unchanged. -/
def check_status_update (session : SwapSession) (runStatus : JobStatus)
    (fetch : Except String AutoResult) (now : String) : SwapSession :=
  match runStatus with
  | JobStatus.succeeded =>
      let s := { session with status := "completed", completed_at := some now }
      match fetch with
      | Except.error _ => s
      | Except.ok r =>
          if r.status == "success" then
            { s with exchange_id := r.exchange_id, exchange_url := r.exchange_url }
          else s
  | JobStatus.failed => { session with status := "failed" }
  | JobStatus.running => { session with status := "running" }
  | JobStatus.ready => session

/-- Default configuration held by the MCP server state
(`SimpleSwapState`, `src/mcp_server.py` lines 60-74). -/
structure McpDefaults where
  default_wallet : Option String := none
  default_amount : ℚ := 25
  default_from_currency : String := "usd-usd"
  default_to_currency : String := "pol-matic"
  deriving DecidableEq, Repr

/-- The `set_defaults` tool (`src/mcp_server.py` lines 432-459): each field is
assigned only when the corresponding argument is Python-truthy, so `None`,
`0.0` and `""` leave the stored default unchanged. -/
def set_defaults (st : McpDefaults) (w : Option String) (a : Option ℚ)
    (f t : Option String) : McpDefaults :=
  let s1 := if truthyStr w then { st with default_wallet := w } else st
  let s2 := if truthyAmt a then { s1 with default_amount := a.getD 0 } else s1
  let s3 := if truthyStr f then { s2 with default_from_currency := f.getD "" } else s2
  if truthyStr t then { s3 with default_to_currency := t.getD "" } else s3

/-- Configuration held by the CLI (`SimpleSwapConfig`,
`src/cli.py` lines 26-37). -/
structure CliConfig where
  default_wallet : Option String := none
  default_amount : ℚ := 25
  default_from_currency : String := "usd-usd"
  default_to_currency : String := "pol-matic"
  profiles : List (String × String) := []
  deriving DecidableEq, Repr

/-- The `config set` CLI command (`src/cli.py` lines 341-360): the same
truthiness-guarded assignment as `set_defaults`. -/
def set_config (cfg : CliConfig) (wallet : Option String) (amount : Option ℚ)
    (from_currency to_currency : Option String) : CliConfig :=
  let s1 := if truthyStr wallet then { cfg with default_wallet := wallet } else cfg
  let s2 := if truthyAmt amount then { s1 with default_amount := amount.getD 0 } else s1
  let s3 := if truthyStr from_currency then
      { s2 with default_from_currency := from_currency.getD "" } else s2
  if truthyStr to_currency then
    { s3 with default_to_currency := to_currency.getD "" } else s3

/-! ## Concrete fixtures used by counterexamples and witnesses -/

/-- A fresh browser context as created by `browser.new_context`
(`src/main.py` lines 226-232 and 391-397): no cookies, empty storages, the
configured desktop user agent. -/
def freshCtx (ua : String) : BrowserCtx :=
  { cookies := [], localStorage := [], sessionStorage := [], userAgent := ua }

/-- The fixed desktop user agent of the stealth session. -/
def demoUA : String := "Mozilla/5.0 (Macintosh; Intel Mac OS X 10_15_7)"

/-- A small populated context. -/
def demoCtx : BrowserCtx :=
  { cookies := [{ name := "sid", value := "abc", domain := "simpleswap.io", path := "/" }],
    localStorage := [("wallet", "0xAB12")],
    sessionStorage := [("seen", "1")],
    userAgent := demoUA }

/-- A store holding a saved profile under the fixed identity. -/
def demoStore : KVStore :=
  kvSet [] profileName (gatherProfile demoCtx "2024-01-01T00:00:00")

/-- A concrete wallet address. -/
def demoWallet : List Char := "0xAB12".toList

/-- A fully successful automation-mode environment: saved profile present,
address selected, redirect URL carrying an exchange id. -/
def envOk : AutoEnv :=
  { store := demoStore, ctx := freshCtx demoUA,
    fieldValue := some demoWallet,
    finalUrl := "https://simpleswap.io/exchange?id=e77&x=1".toList,
    wallet_address := demoWallet, now := "T1" }

/-- A concrete setup-mode environment. -/
def envSetup0 : SetupEnv :=
  { store := demoStore, ctx := demoCtx, wallet_address := demoWallet, now := "T2" }

/-- A concrete crawler environment. -/
def pupEnv0 : PupEnv :=
  { finalUrl := "https://simpleswap.io/exchange?id=e77&x=1".toList,
    wallet_address := demoWallet, now := "T1" }

/-- A concrete tracked session without an exchange id. -/
def demoSession : SwapSession :=
  { session_id := "session_20240101_000000_0", wallet_address := "0xAB12",
    amount := 25, from_currency := "usd-usd", to_currency := "pol-matic",
    status := "swap_in_progress", run_id := some "r1", created_at := "T0" }

/-! ## Helper lemmas -/

/-- Python substring containment agrees with the success of the suffix search. -/
theorem afterFirst_isSome (needle : List Char) :
    ∀ hay : List Char, (afterFirst needle hay).isSome = containsSeq needle hay := by
  intro hay
  induction hay with
  | nil =>
      by_cases h : needle.isEmpty <;> simp [afterFirst, containsSeq, h]
  | cons c rest ih =>
      by_cases h : needle.isPrefixOf (c :: rest) <;>
        simp [afterFirst, containsSeq, h, ih]

/-! ## Claim C1 — URL outcome classification -/

/-- Claim C1 as stated is false on the code.  At the URL
`https://site/exchange?id=1id=2`, which carries an `id=` parameter, the
substring after `id=` up to the next `&` or the end of the string is `1id=2`,
but the code extracts `1` (Python `split("id=")[1]` also truncates at the next
occurrence of `id=`).  At `https://site/exchange?valid=1`, which has no `id=`
parameter, the claim requires status `failed`, but the code matches the
substring `id=` inside `valid=1` and publishes a success result with
exchange id `1`. -/
theorem c1_counterexample :
    (hasIdParam "https://site/exchange?id=1id=2".toList = true ∧
     specIdentifier "https://site/exchange?id=1id=2".toList = some "1id=2".toList ∧
     classify_url "https://site/exchange?id=1id=2".toList = some "1".toList ∧
     classify_url "https://site/exchange?id=1id=2".toList ≠
       specIdentifier "https://site/exchange?id=1id=2".toList) ∧
    (hasIdParam "https://site/exchange?valid=1".toList = false ∧
     classify_url "https://site/exchange?valid=1".toList = some "1".toList ∧
     (run_automation_mode
        { envOk with finalUrl := "https://site/exchange?valid=1".toList
        }).published.map AutoResult.status = ["success"]) := by
  decide

/-- Claim C1 (amended): for every run that reaches the submit step, outcome
classification is a pure function of the final URL string: the run is
classified success exactly when the URL contains `id=` as a substring (not
necessarily as a query parameter), and the extracted identifier is the
substring after the first `id=` truncated at the next occurrence of `id=` and
at the next `&` (Python split semantics); a URL without the substring `id=`
yields the `failed` no-redirect result.  On the canonical spec example the
identifier is `abc123`.  No page-content parsing participates. -/
theorem c1_amended :
    (∀ env : AutoEnv, env.launchErr = none →
      (load_profile env.store env.ctx env.loadGetFail env.restoreOk profileName).1 = true →
      env.bodyErr = none → env.addressFound = true →
      addressSelectedCheck env.wallet_address env.fieldValue = true →
      (∀ exid, classify_url env.finalUrl = some exid →
        (run_automation_mode env).published =
          [{ status := "success", wallet_address := walletStr env,
             amount := some env.amount,
             from_currency := some env.from_currency,
             to_currency := some env.to_currency,
             exchange_id := some exid, exchange_url := some env.finalUrl,
             created_at := env.now }]) ∧
      (classify_url env.finalUrl = none →
        (run_automation_mode env).published =
          [{ status := "failed", error := some "No redirect to exchange page",
             current_url := some env.finalUrl, wallet_address := walletStr env,
             amount := some env.amount, created_at := env.now }])) ∧
    (∀ url, (classify_url url).isSome = containsSeq idMarker url) ∧
    classify_url "https://site/exchange?from=a&id=abc123&foo=1".toList =
      some "abc123".toList := by
  refine ⟨?_, ?_, by decide⟩
  · intro env h1 h2 h3 h4 h5
    constructor
    · intro exid hc
      simp [run_automation_mode, h1, h2, h3, h4, h5, hc]
    · intro hc
      simp [run_automation_mode, h1, h2, h3, h4, h5, hc]
  · intro url
    unfold classify_url
    rw [← afterFirst_isSome]
    cases afterFirst idMarker url <;> simp

/-- Witness for claim C1 (amended) at the concrete successful environment. -/
theorem c1_witness :
    (run_automation_mode envOk).published =
      [{ status := "success", wallet_address := walletStr envOk,
         amount := some envOk.amount,
         from_currency := some envOk.from_currency,
         to_currency := some envOk.to_currency,
         exchange_id := some "e77".toList,
         exchange_url := some envOk.finalUrl,
         created_at := envOk.now }] :=
  ((c1_amended.1 envOk rfl (by decide) rfl rfl (by decide)).1 "e77".toList (by decide))

/-! ## Claim C2 — no exception escapes a run -/

/-- Claim C2 as stated is false on the code: the browser launch and context
creation (`src/main.py` lines 378-405) precede the try block, so an exception
raised there escapes `run_automation_mode` and no `AutomationResult` is
produced at all. -/
theorem c2_counterexample :
    (run_automation_mode { envOk with launchErr := some "browser launch failed" }).raised =
      some "browser launch failed" ∧
    (run_automation_mode { envOk with launchErr := some "browser launch failed" }).published = [] := by
  decide

/-- Claim C2 (amended): for every run in which the browser launch and context
creation succeed, no exception propagates out of the run and exactly one
result is published; an unhandled exception anywhere in the guarded region of
an automation run that got past the profile check yields the status `error`
result carrying the raw error text.  Exceptions during browser launch (before
the guarded region) may escape without a result. -/
theorem c2_amended :
    ∀ (env : AutoEnv) (envS : SetupEnv), env.launchErr = none → envS.launchErr = none →
      (run_automation_mode env).raised = none ∧
      (run_automation_mode env).published.length = 1 ∧
      (run_setup_mode envS).raised = none ∧
      (run_setup_mode envS).published.length = 1 ∧
      (∀ e, env.bodyErr = some e →
        (load_profile env.store env.ctx env.loadGetFail env.restoreOk profileName).1 = true →
        (run_automation_mode env).published =
          [{ status := "error", error := some e, wallet_address := walletStr env,
             amount := some env.amount, created_at := env.now }]) := by
  intro env envS h1 hS
  refine ⟨?_, ?_, ?_, ?_, ?_⟩
  · simp only [run_automation_mode, h1]
    repeat first | rfl | split
  · simp only [run_automation_mode, h1]
    repeat first | rfl | split
  · simp only [run_setup_mode, hS]
    repeat first | rfl | split
  · simp only [run_setup_mode, hS]
    repeat first | rfl | split
  · intro e he hl
    simp [run_automation_mode, h1, he, hl]

/-- Witness for claim C2 (amended) at concrete environments, including one
whose guarded region raises. -/
theorem c2_witness :
    (run_automation_mode { envOk with bodyErr := some "KeyError" }).raised = none ∧
    (run_automation_mode { envOk with bodyErr := some "KeyError" }).published.length = 1 ∧
    (run_setup_mode envSetup0).raised = none ∧
    (run_setup_mode envSetup0).published.length = 1 :=
  ⟨(c2_amended { envOk with bodyErr := some "KeyError" } envSetup0 rfl rfl).1,
   (c2_amended { envOk with bodyErr := some "KeyError" } envSetup0 rfl rfl).2.1,
   (c2_amended { envOk with bodyErr := some "KeyError" } envSetup0 rfl rfl).2.2.1,
   (c2_amended { envOk with bodyErr := some "KeyError" } envSetup0 rfl rfl).2.2.2.1⟩

/-! ## Claim C3 — missing profile fails fast without navigation -/

/-- Claim C3: an automation-mode run finding no profile under the configured
identity deterministically publishes the fixed failed record and performs no
navigation to the exchange page. -/
theorem c3_no_profile :
    ∀ env : AutoEnv, env.launchErr = none → kvGet env.store profileName = none →
      (run_automation_mode env).published =
        [{ status := "failed",
           error := some "No saved profile found. Run setup mode first.",
           wallet_address := walletStr env, amount := some env.amount,
           created_at := env.now }] ∧
      (run_automation_mode env).navs = 0 := by
  intro env h1 h2
  have hl : (load_profile env.store env.ctx env.loadGetFail env.restoreOk profileName).1 = false := by
    unfold load_profile
    cases env.loadGetFail <;> simp [h2]
  constructor <;> simp [run_automation_mode, h1, hl]

/-- Witness for claim C3 at a concrete empty store. -/
theorem c3_witness :
    (run_automation_mode { envOk with store := [] }).published =
      [{ status := "failed",
         error := some "No saved profile found. Run setup mode first.",
         wallet_address := some "0xAB12", amount := some 25,
         created_at := "T1" }] ∧
    (run_automation_mode { envOk with store := [] }).navs = 0 :=
  c3_no_profile { envOk with store := [] } rfl rfl

/-! ## Claim C4 — profile-store write discipline -/

/-- Claim C4 as stated is false on the code: a setup-mode run whose navigation
raises (an exception in the guarded region before the save at
`src/main.py` line 292) reaches the except clause, publishes a
`setup_error` result, and never calls `save_profile` — the store is left
unchanged, so not every Setup-mode run writes profile state. -/
theorem c4_counterexample :
    (run_setup_mode { envSetup0 with bodyErr := some "nav timeout" }).saveCalls = 0 ∧
    (run_setup_mode { envSetup0 with bodyErr := some "nav timeout" }).store = demoStore ∧
    (run_setup_mode { envSetup0 with bodyErr := some "nav timeout" }).published.map
      AutoResult.status = ["setup_error"] := by
  decide

/-- Claim C4 (amended): every Setup-mode run whose guarded region raises no
unhandled exception before the save calls `save_profile` exactly once,
regardless of the address-entry sub-step outcomes; an Automation-mode run
calls `save_profile` exactly when it publishes a success result; and an
automation run that makes no save call leaves the profile store unchanged. -/
theorem c4_amended :
    ∀ (env : AutoEnv) (envS : SetupEnv),
      (envS.launchErr = none → envS.bodyErr = none →
        (run_setup_mode envS).saveCalls = 1) ∧
      (((run_automation_mode env).saveCalls == 1) =
        (run_automation_mode env).published.any (fun r => r.status == "success")) ∧
      ((run_automation_mode env).saveCalls = 0 →
        (run_automation_mode env).store = env.store) := by
  intro env envS
  refine ⟨?_, ?_, ?_⟩
  · intro h1 h2
    simp [run_setup_mode, h1, h2]
  · unfold run_automation_mode
    split
    · rfl
    · split
      · rfl
      · split
        · rfl
        · split
          · rfl
          · split
            · rfl
            · split <;> rfl
  · unfold run_automation_mode
    split
    · intro _; rfl
    · split
      · intro _; rfl
      · split
        · intro _; rfl
        · split
          · intro _; rfl
          · split
            · intro _; rfl
            · split
              · intro h; exact absurd h (by simp)
              · intro _; rfl

/-- Witness for claim C4 (amended): the setup run saves once; a no-redirect
automation run leaves the store unchanged. -/
theorem c4_witness :
    (run_setup_mode envSetup0).saveCalls = 1 ∧
    (run_automation_mode
      { envOk with finalUrl := "https://simpleswap.io/exchange".toList }).store = demoStore :=
  ⟨(c4_amended envOk envSetup0).1 rfl rfl,
   (c4_amended { envOk with finalUrl := "https://simpleswap.io/exchange".toList }
      envSetup0).2.2 (by decide)⟩

/-! ## Claim C5 — profile-store failure absorption -/

/-- Claim C5 as stated is false on the code: `profile_exists` has no
try/except around its key-value read (`src/main.py` lines 116-127), so a
raising read propagates out of the operation instead of surfacing as
`False`. -/
theorem c5_counterexample :
    profile_exists demoStore (some "ECONNRESET: store read failed") profileName =
      Except.error "ECONNRESET: store read failed" ∧
    profile_exists demoStore (some "ECONNRESET: store read failed") profileName ≠
      Except.ok false := by
  refine ⟨rfl, ?_⟩
  intro h
  exact Except.noConfusion h

/-- Claim C5 (amended): `save_profile`, `load_profile` and `delete_profile`
catch every store or context failure inside the operation and surface it as
`None` / `False` / `False` with the store unchanged, and a missing profile is
indistinguishable from a failed read for `load_profile`; `profile_exists` is
the exception: it answers from the store on a successful read but propagates a
raising read. -/
theorem c5_amended :
    ∀ (store : KVStore) (ctx : BrowserCtx) (e now name : String)
      (restoreOk gatherOk setOk : Bool),
      load_profile store ctx (some e) restoreOk name = (false, ctx) ∧
      load_profile [] ctx none restoreOk name = (false, ctx) ∧
      save_profile store ctx now gatherOk false name = (none, store) ∧
      save_profile store ctx now false setOk name = (none, store) ∧
      delete_profile store true name = (false, store) ∧
      profile_exists store none name = Except.ok (kvGet store name).isSome ∧
      profile_exists store (some e) name = Except.error e := by
  intro store ctx e now name restoreOk gatherOk setOk
  refine ⟨rfl, rfl, ?_, rfl, rfl, rfl, rfl⟩
  cases gatherOk <;> rfl

/-! ## Claim C6 — missing wallet fails before any browser session -/

/-- Claim C6: a falsy wallet address (absent or empty) makes both entry points
return before any browser is launched, any navigation happens or any result is
pushed. -/
theorem c6_missing_wallet :
    ∀ (w : Option String) (setup : Bool) (envA : AutoEnv) (envS : SetupEnv) (penv : PupEnv),
      truthyStr w = false →
      (mainEntry w setup envA envS).launches = 0 ∧
      (mainEntry w setup envA envS).navs = 0 ∧
      (puppeteer_main w penv).launches = 0 := by
  intro w setup envA envS penv h
  simp [mainEntry, puppeteer_main, h]

/-- Witness for claim C6 at the absent and the empty wallet address. -/
theorem c6_witness :
    (mainEntry (some "") false envOk envSetup0).launches = 0 ∧
    (puppeteer_main none pupEnv0).launches = 0 :=
  ⟨(c6_missing_wallet (some "") false envOk envSetup0 pupEnv0 rfl).1,
   (c6_missing_wallet none false envOk envSetup0 pupEnv0 rfl).2.2⟩

/-! ## Claim C7 — save/load round-trip -/

/-- Claim C7: saving a profile and immediately loading it reproduces the same
cookie set, the same storage maps and the same user agent; the persisted
record read back from the store is structurally equal to the record saved. -/
theorem c7_roundtrip :
    ∀ (ctx : BrowserCtx) (store : KVStore) (now : String),
      (save_profile store ctx now true true profileName).1 =
        some (gatherProfile ctx now) ∧
      kvGet (save_profile store ctx now true true profileName).2 profileName =
        some (gatherProfile ctx now) ∧
      (load_profile (save_profile store ctx now true true profileName).2
        (freshCtx ctx.userAgent) none true profileName).1 = true ∧
      ((load_profile (save_profile store ctx now true true profileName).2
        (freshCtx ctx.userAgent) none true profileName).2).cookies = ctx.cookies ∧
      ((load_profile (save_profile store ctx now true true profileName).2
        (freshCtx ctx.userAgent) none true profileName).2).localStorage = ctx.localStorage ∧
      ((load_profile (save_profile store ctx now true true profileName).2
        (freshCtx ctx.userAgent) none true profileName).2).sessionStorage = ctx.sessionStorage ∧
      ((load_profile (save_profile store ctx now true true profileName).2
        (freshCtx ctx.userAgent) none true profileName).2).userAgent = ctx.userAgent ∧
      (gatherProfile ctx now).userAgent = ctx.userAgent := by
  intro ctx store now
  have hget : kvGet (save_profile store ctx now true true profileName).2 profileName =
      some (gatherProfile ctx now) := by
    simp [save_profile, kvSet, kvGet, List.find?]
  have hload : load_profile (save_profile store ctx now true true profileName).2
      (freshCtx ctx.userAgent) none true profileName =
      (true, restoreProfile (gatherProfile ctx now) (freshCtx ctx.userAgent)) := by
    simp [load_profile, hget]
  have hcook : (restoreProfile (gatherProfile ctx now) (freshCtx ctx.userAgent)).cookies =
      ctx.cookies := by
    simp only [restoreProfile, gatherProfile, freshCtx]
    cases hc : ctx.cookies <;> cases hl : ctx.localStorage <;>
      cases hs : ctx.sessionStorage <;> simp [hc, hl, hs]
  have hls : (restoreProfile (gatherProfile ctx now) (freshCtx ctx.userAgent)).localStorage =
      ctx.localStorage := by
    simp only [restoreProfile, gatherProfile, freshCtx]
    cases hc : ctx.cookies <;> cases hl : ctx.localStorage <;>
      cases hs : ctx.sessionStorage <;> simp [hc, hl, hs]
  have hss : (restoreProfile (gatherProfile ctx now) (freshCtx ctx.userAgent)).sessionStorage =
      ctx.sessionStorage := by
    simp only [restoreProfile, gatherProfile, freshCtx]
    cases hc : ctx.cookies <;> cases hl : ctx.localStorage <;>
      cases hs : ctx.sessionStorage <;> simp [hc, hl, hs]
  have hua : (restoreProfile (gatherProfile ctx now) (freshCtx ctx.userAgent)).userAgent =
      ctx.userAgent := by
    simp only [restoreProfile, gatherProfile, freshCtx]
    cases hc : ctx.cookies <;> cases hl : ctx.localStorage <;>
      cases hs : ctx.sessionStorage <;> simp [hc, hl, hs]
  refine ⟨rfl, hget, ?_, ?_, ?_, ?_, ?_, rfl⟩
  · rw [hload]
  · rw [hload]; exact hcook
  · rw [hload]; exact hls
  · rw [hload]; exact hss
  · rw [hload]; exact hua

/-! ## Claim C8 — polling interval and timeout behaviour -/

/-- A monitor loop whose status check is stuck on RUNNING exhausts its
admitted iterations and returns the timeout record. -/
theorem monitorAux_stuckRunning (statuses : Nat → Except String JobStatus)
    (fetches : Nat → Except String AutoResult)
    (h : ∀ j, statuses j = Except.ok JobStatus.running) :
    ∀ (n k : Nat), monitorAux statuses fetches k n =
      { success := false, error := some "Monitoring timeout", result := none,
        checks := k + n } := by
  intro n
  induction n with
  | zero => intro k; rfl
  | succ n ih =>
      intro k
      have harith : k + 1 + n = k + (n + 1) := by omega
      simp only [monitorAux, h k]
      rw [ih (k + 1), harith]

/-- A CLI polling loop whose status check is stuck on RUNNING exhausts its
admitted polls and raises the timeout exception. -/
theorem cliPollAux_stuckRunning (statuses : Nat → JobStatus)
    (h : ∀ j, statuses j = JobStatus.running) :
    ∀ (n k : Nat), cliPollAux statuses k n = CliOutcome.timedOut (k + n) := by
  intro n
  induction n with
  | zero => intro k; rfl
  | succ n ih =>
      intro k
      have harith : k + 1 + n = k + (n + 1) := by omega
      simp only [cliPollAux, h k]
      rw [ih (k + 1), harith]

/-- Claim C8 as stated is false on the code: a monitor whose remote job is
stuck in RUNNING past the timeout returns
`{"success": False, "error": "Monitoring timeout"}`
(`src/unified_workflow.py` line 302), not `{"success": False, "error":
"timeout"}`. -/
theorem c8_counterexample :
    monitor_completion (fun _ => Except.ok JobStatus.running)
      (fun _ => Except.error "fetch is never reached") =
      { success := false, error := some "Monitoring timeout", result := none,
        checks := 60 } ∧
    (monitor_completion (fun _ => Except.ok JobStatus.running)
      (fun _ => Except.error "fetch is never reached")).error ≠ some "timeout" := by
  refine ⟨by decide, by decide⟩

/-- Claim C8 (amended): both front-end polling loops check the job status once
per 5-second interval; the workflow monitor gives up after its hard-coded
300-second timeout, having made 60 status checks, and returns
`{"success": False, "error": "Monitoring timeout"}` without any write to the
job (its status checks are plain reads, modelled as a pure observation
sequence); the CLI waiter with its default 300-second timeout makes 61 status
checks (its guard admits elapsed times up to and including 300 seconds) and
then raises its timeout exception. -/
theorem c8_amended :
    ∀ (statuses : Nat → Except String JobStatus)
      (fetches : Nat → Except String AutoResult)
      (statusesCli : Nat → JobStatus),
      (∀ j, statuses j = Except.ok JobStatus.running) →
      (∀ j, statusesCli j = JobStatus.running) →
      monitor_completion statuses fetches =
        { success := false, error := some "Monitoring timeout", result := none,
          checks := 60 } ∧
      wait_for_completion statusesCli 300 = CliOutcome.timedOut 61 := by
  intro s f sc h1 h2
  constructor
  · have := monitorAux_stuckRunning s f h1 60 0
    simpa [monitor_completion] using this
  · have := cliPollAux_stuckRunning sc h2 61 0
    simpa [wait_for_completion] using this

/-- Witness for claim C8 (amended) at concrete stuck-RUNNING observation
sequences. -/
theorem c8_witness :
    monitor_completion (fun _ => Except.ok JobStatus.running)
      (fun _ => Except.ok { status := "success" }) =
      { success := false, error := some "Monitoring timeout", result := none,
        checks := 60 } ∧
    wait_for_completion (fun _ => JobStatus.running) 300 = CliOutcome.timedOut 61 :=
  c8_amended (fun _ => Except.ok JobStatus.running)
    (fun _ => Except.ok { status := "success" })
    (fun _ => JobStatus.running) (fun _ => rfl) (fun _ => rfl)

/-! ## Claim C9 — check_status marks SUCCEEDED sessions completed -/

/-- Claim C9: on a SUCCEEDED remote run the tracked session is unconditionally
marked completed and time-stamped, even when the fetched result has status
`failed` or `error` (or the fetch raises); the exchange fields are copied into
the session exactly when the fetched result has status `success`, so a
completed session need not carry an exchange identifier. -/
theorem c9_completed_unconditionally :
    ∀ (s : SwapSession) (fetch : Except String AutoResult) (now : String),
      (check_status_update s JobStatus.succeeded fetch now).status = "completed" ∧
      (check_status_update s JobStatus.succeeded fetch now).completed_at = some now ∧
      (∀ r, fetch = Except.ok r → ¬(r.status = "success") →
        (check_status_update s JobStatus.succeeded fetch now).exchange_id = s.exchange_id ∧
        (check_status_update s JobStatus.succeeded fetch now).exchange_url = s.exchange_url) ∧
      (∀ r, fetch = Except.ok r → r.status = "success" →
        (check_status_update s JobStatus.succeeded fetch now).exchange_id = r.exchange_id ∧
        (check_status_update s JobStatus.succeeded fetch now).exchange_url = r.exchange_url) := by
  intro s fetch now
  refine ⟨?_, ?_, ?_, ?_⟩
  · unfold check_status_update
    cases fetch with
    | error e => rfl
    | ok r => by_cases h : r.status = "success" <;> simp [h]
  · unfold check_status_update
    cases fetch with
    | error e => rfl
    | ok r => by_cases h : r.status = "success" <;> simp [h]
  · intro r hr h
    subst hr
    simp [check_status_update, h]
  · intro r hr h
    subst hr
    simp [check_status_update, h]

/-- Witness for claim C9: a session updated from a SUCCEEDED run whose
artifact has status `failed` ends up completed with no exchange identifier. -/
theorem c9_witness :
    (check_status_update demoSession JobStatus.succeeded
      (Except.ok { status := "failed", error := some "No redirect to exchange page" })
      "T3").status = "completed" ∧
    (check_status_update demoSession JobStatus.succeeded
      (Except.ok { status := "failed", error := some "No redirect to exchange page" })
      "T3").exchange_id = none :=
  ⟨(c9_completed_unconditionally demoSession
      (Except.ok { status := "failed", error := some "No redirect to exchange page" }) "T3").1,
   ((c9_completed_unconditionally demoSession
      (Except.ok { status := "failed", error := some "No redirect to exchange page" }) "T3").2.2.1
      { status := "failed", error := some "No redirect to exchange page" } rfl
      (by decide)).1⟩

/-! ## Claim C10 — falsy arguments leave stored defaults unchanged -/

/-- Claim C10: both the MCP `set_defaults` tool and the CLI `config set`
command treat a falsy argument (`None`, amount `0.0`, empty string) as a
no-op for the corresponding field, and only truthy values update it. -/
theorem c10_falsy_noop :
    ∀ (st : McpDefaults) (cfg : CliConfig) (w f t : Option String)
      (a : Option ℚ) (q : ℚ),
      (set_defaults st w (some 0) f t).default_amount = st.default_amount ∧
      (set_defaults st (some "") a f t).default_wallet = st.default_wallet ∧
      (set_defaults st w a (some "") t).default_from_currency = st.default_from_currency ∧
      (set_defaults st w a f (some "")).default_to_currency = st.default_to_currency ∧
      set_defaults st none none none none = st ∧
      (¬(q = 0) → (set_defaults st w (some q) f t).default_amount = q) ∧
      (set_config cfg w (some 0) f t).default_amount = cfg.default_amount ∧
      (set_config cfg (some "") a f t).default_wallet = cfg.default_wallet ∧
      (¬(q = 0) → (set_config cfg w (some q) f t).default_amount = q) := by
  intro st cfg w f t a q
  have h0 : truthyAmt (some 0) = false := by decide
  have hes : truthyStr (some "") = false := by decide
  have hnS : truthyStr none = false := rfl
  have hnA : truthyAmt none = false := rfl
  refine ⟨?_, ?_, ?_, ?_, ?_, ?_, ?_, ?_, ?_⟩
  · by_cases hw : truthyStr w <;> by_cases hf : truthyStr f <;>
      by_cases ht : truthyStr t <;>
      simp [set_defaults, hw, hf, ht, h0]
  · by_cases ha : truthyAmt a <;> by_cases hf : truthyStr f <;>
      by_cases ht : truthyStr t <;>
      simp [set_defaults, ha, hf, ht, hes]
  · by_cases hw : truthyStr w <;> by_cases ha : truthyAmt a <;>
      by_cases ht : truthyStr t <;>
      simp [set_defaults, hw, ha, ht, hes]
  · by_cases hw : truthyStr w <;> by_cases ha : truthyAmt a <;>
      by_cases hf : truthyStr f <;>
      simp [set_defaults, hw, ha, hf, hes]
  · simp [set_defaults, hnS, hnA]
  · intro hq
    have hqt : truthyAmt (some q) = true := by simp [truthyAmt, hq]
    by_cases hw : truthyStr w <;> by_cases hf : truthyStr f <;>
      by_cases ht : truthyStr t <;>
      simp [set_defaults, hw, hf, ht, hqt]
  · by_cases hw : truthyStr w <;> by_cases hf : truthyStr f <;>
      by_cases ht : truthyStr t <;>
      simp [set_config, hw, hf, ht, h0]
  · by_cases ha : truthyAmt a <;> by_cases hf : truthyStr f <;>
      by_cases ht : truthyStr t <;>
      simp [set_config, ha, hf, ht, hes]
  · intro hq
    have hqt : truthyAmt (some q) = true := by simp [truthyAmt, hq]
    by_cases hw : truthyStr w <;> by_cases hf : truthyStr f <;>
      by_cases ht : truthyStr t <;>
      simp [set_config, hw, hf, ht, hqt]

/-- Witness for claim C10 at concrete falsy and truthy amounts. -/
theorem c10_witness :
    (set_defaults { } none (some 0) none none).default_amount = (25 : ℚ) ∧
    (set_defaults { } none (some 7) none none).default_amount = 7 ∧
    (set_config { } none (some 0) none none).default_amount = (25 : ℚ) :=
  ⟨(c10_falsy_noop { } { } none none none none 7).1,
   (c10_falsy_noop { } { } none none none none 7).2.2.2.2.2.1 (by norm_num),
   (c10_falsy_noop { } { } none none none none 7).2.2.2.2.2.2.1⟩

end SimpleSwap
